import Mathlib

set_option maxRecDepth 8000

/-! Shallow embedding of the qr-code-generator HTTP service.

The authoritative program is the TypeScript entry point (src/server.ts,
together with src/types.ts); the repository also carries a stale
pre-TypeScript duplicate (server.js) that lacks the format and size
validation and is superseded by the TypeScript build that the package
runs.  We embed the two request handlers, POST /generate-qr and GET /qr,
as pure functions from raw request input to an HTTP response paired with
the trace of calls made to the external QR-rendering capability.
JavaScript runtime values and the coercions the handlers use (ToBoolean
truthiness, ToNumber, parseInt, strict equality against string literals)
are modelled explicitly. -/

/-- JavaScript numbers as relevant to this program: NaN, the two signed
infinities, or a finite value, idealized as a rational (every size value in
range is exactly representable, and the range comparisons against 100 and
1000 agree with double arithmetic on this domain). -/
inductive JSNum where
  | nan : JSNum
  | posInf : JSNum
  | negInf : JSNum
  | finite : ℚ → JSNum
deriving DecidableEq

/-- Untyped JavaScript values as they arrive from a parsed JSON body:
undefined, null, a boolean, a number or a string. -/
inductive JSVal where
  | undef : JSVal
  | nullV : JSVal
  | boolV : Bool → JSVal
  | numV : JSNum → JSVal
  | strV : String → JSVal
deriving DecidableEq

/-- JavaScript ToBoolean: the truthiness test used by `if (!url)` and by the
conditional expression `transparentBackground ? a : b`. -/
def truthy : JSVal → Bool
  | .undef => false
  | .nullV => false
  | .boolV b => b
  | .numV .nan => false
  | .numV .posInf => true
  | .numV .negInf => true
  | .numV (.finite q) => decide (q ≠ 0)
  | .strV s => decide (s ≠ "")

/-- JavaScript destructuring default: the default applies exactly when the
field is undefined (null and every other value pass through). -/
def defaultTo (v d : JSVal) : JSVal :=
  match v with
  | .undef => d
  | _ => v

/-- Strict equality (===) of a JavaScript value against a string literal, as
used by the format checks: true only for an identical string. -/
def jsEqStr (v : JSVal) (s : String) : Bool :=
  match v with
  | .strV t => t == s
  | _ => false

/-- Value of a list of decimal digit characters. -/
def digitsToNat (cs : List Char) : Nat :=
  cs.foldl (fun a c => a * 10 + (c.toNat - 48)) 0

/-- JavaScript whitespace recognized by parseInt and ToNumber (the ASCII
portion: space, tab, line feed, vertical tab, form feed, carriage return). -/
def isJSWhitespace (c : Char) : Bool :=
  c = ' ' || c.toNat = 9 || c.toNat = 10 || c.toNat = 11 || c.toNat = 12 || c.toNat = 13

/-- Trim JavaScript whitespace from both ends. -/
def trimJS (cs : List Char) : List Char :=
  ((cs.dropWhile isJSWhitespace).reverse.dropWhile isJSWhitespace).reverse

/-- Longest leading run of decimal digits, as consumed by parseInt: no digit
at all yields NaN, otherwise the signed value of the digits. -/
def parseIntDigits (sign : Int) (cs : List Char) : JSNum :=
  let ds := cs.takeWhile Char.isDigit
  if ds.isEmpty then .nan else .finite ((sign * (digitsToNat ds : Int) : Int) : ℚ)

/-- JavaScript parseInt with radix 10, as used by the GET /qr size check:
skip leading whitespace, take an optional sign and then the longest digit
prefix; no digits means NaN. -/
def parseIntJS (s : String) : JSNum :=
  match s.toList.dropWhile isJSWhitespace with
  | '+' :: rest => parseIntDigits 1 rest
  | '-' :: rest => parseIntDigits (-1) rest
  | rest => parseIntDigits 1 rest

/-- Exponent digits after an optional sign; the whole remainder must be
digits. -/
def expValue (sign : Int) (cs : List Char) : Option Int :=
  if cs.isEmpty || !cs.all Char.isDigit then none
  else some (sign * (digitsToNat cs : Int))

/-- Exponent part of a decimal literal, after the letter e or E. -/
def parseExponent : List Char → Option Int
  | '+' :: rest => expValue 1 rest
  | '-' :: rest => expValue (-1) rest
  | rest => expValue 1 rest

/-- Value of a decimal literal with integer digits, fraction digits and a
decimal exponent. -/
def decValue (ip fp : List Char) (e : Int) : ℚ :=
  ((digitsToNat ip : ℚ) + (digitsToNat fp : ℚ) / (10 : ℚ) ^ fp.length) * (10 : ℚ) ^ e

/-- Unsigned decimal numeric literal of the ToNumber string grammar:
digits, an optional fraction, an optional exponent; the whole input must be
consumed. -/
def parseDecimal (cs : List Char) : Option ℚ :=
  let ip := cs.takeWhile Char.isDigit
  let r1 := cs.dropWhile Char.isDigit
  match r1 with
  | [] => if ip.isEmpty then none else some (decValue ip [] 0)
  | '.' :: r2 =>
    let fp := r2.takeWhile Char.isDigit
    let r3 := r2.dropWhile Char.isDigit
    if ip.isEmpty && fp.isEmpty then none
    else
      match r3 with
      | [] => some (decValue ip fp 0)
      | 'e' :: r4 => (parseExponent r4).map (decValue ip fp)
      | 'E' :: r4 => (parseExponent r4).map (decValue ip fp)
      | _ => none
  | 'e' :: r4 => if ip.isEmpty then none else (parseExponent r4).map (decValue ip [])
  | 'E' :: r4 => if ip.isEmpty then none else (parseExponent r4).map (decValue ip [])
  | _ => none

/-- Value of one digit in the given radix, if it is one. -/
def digitValue (radix : Nat) (c : Char) : Option Nat :=
  let v :=
    if c.isDigit then some (c.toNat - 48)
    else if 'a' ≤ c && c ≤ 'f' then some (c.toNat - 87)
    else if 'A' ≤ c && c ≤ 'F' then some (c.toNat - 55)
    else none
  match v with
  | some d => if d < radix then some d else none
  | none => none

/-- Value of a nonempty all-digit string in the given radix. -/
def parseRadix (radix : Nat) (cs : List Char) : Option Nat :=
  if cs.isEmpty then none
  else cs.foldl (fun acc c => acc.bind fun a => (digitValue radix c).map fun d => a * radix + d)
    (some 0)

/-- Radix-prefixed integer literal body as a JavaScript number. -/
def radixNum (radix : Nat) (cs : List Char) : JSNum :=
  match parseRadix radix cs with
  | some n => .finite (n : ℚ)
  | none => .nan

/-- Body of the ToNumber string grammar after trimming: an unsigned
hexadecimal, octal or binary literal, or a signed Infinity or decimal
literal; anything else is NaN. -/
def strBodyToNumber : List Char → JSNum
  | '0' :: 'x' :: r => radixNum 16 r
  | '0' :: 'X' :: r => radixNum 16 r
  | '0' :: 'o' :: r => radixNum 8 r
  | '0' :: 'O' :: r => radixNum 8 r
  | '0' :: 'b' :: r => radixNum 2 r
  | '0' :: 'B' :: r => radixNum 2 r
  | cs =>
    let sr : Int × List Char :=
      match cs with
      | '+' :: r => (1, r)
      | '-' :: r => (-1, r)
      | r => (1, r)
    if sr.2 == "Infinity".toList then (if sr.1 == 1 then .posInf else .negInf)
    else
      match parseDecimal sr.2 with
      | some q => .finite ((sr.1 : ℚ) * q)
      | none => .nan

/-- JavaScript ToNumber applied to a string: whitespace-only input is 0,
otherwise the string numeric literal grammar decides. -/
def strToNumber (s : String) : JSNum :=
  let cs := trimJS s.toList
  if cs.isEmpty then .finite 0 else strBodyToNumber cs

/-- JavaScript ToNumber, as invoked by `Number(size)` on the POST path. -/
def toNumber : JSVal → JSNum
  | .undef => .nan
  | .nullV => .finite 0
  | .boolV b => .finite (if b then 1 else 0)
  | .numV n => n
  | .strV s => strToNumber s

/-- Textual form of a JavaScript number.  For non-integral finite values
this is an approximation of the double-to-string algorithm; the program only
ever inspects these strings through the URL validity check below, which
looks for a scheme delimiter that no numeric string contains. -/
def jsNumToString : JSNum → String
  | .nan => "NaN"
  | .posInf => "Infinity"
  | .negInf => "-Infinity"
  | .finite q => if q.den == 1 then toString q.num else toString q.num ++ "/" ++ toString q.den

/-- JavaScript ToString, applied by the URL constructor and the qrcode
library to the url argument. -/
def jsToString : JSVal → String
  | .undef => "undefined"
  | .nullV => "null"
  | .boolV b => if b then "true" else "false"
  | .numV n => jsNumToString n
  | .strV s => s

/-- NaN test, as used by `isNaN(sizeNum)`. -/
def jsIsNaN : JSNum → Bool
  | .nan => true
  | _ => false

/-- JavaScript less-than against a finite constant: false on NaN. -/
def jsNumLt : JSNum → ℚ → Bool
  | .nan, _ => false
  | .posInf, _ => false
  | .negInf, _ => true
  | .finite q, k => decide (q < k)

/-- JavaScript greater-than against a finite constant: false on NaN. -/
def jsNumGt : JSNum → ℚ → Bool
  | .nan, _ => false
  | .posInf, _ => true
  | .negInf, _ => false
  | .finite q, k => decide (k < q)

/-- The size rejection test both handlers use:
`isNaN(sizeNum) || sizeNum < 100 || sizeNum > 1000`. -/
def sizeOutOfRange (n : JSNum) : Bool :=
  jsIsNaN n || jsNumLt n 100 || jsNumGt n 1000

/-- Modelled from the spec: the platform WHATWG URL constructor
(`new URL(url)`), an external capability not part of the repository; the
spec requires a scheme, and a host for the special schemes.  Scheme names
are an ASCII letter followed by letters, digits, plus, minus or dot. -/
def isSchemeChar (c : Char) : Bool :=
  c.isAlphanum || c = '+' || c = '-' || c = '.'

/-- Modelled from the spec: the special schemes of the WHATWG URL standard,
for which a nonempty host is required. -/
def specialSchemes : List String := ["http", "https", "ws", "wss", "ftp"]

/-- Modelled from the spec: code points the WHATWG host parser rejects. -/
def forbiddenHostChar (c : Char) : Bool :=
  c.toNat < 33 || c = '#' || c = '/' || c = '<' || c = '>' || c = '?' || c = '@' ||
  c = '[' || c = '\\' || c = ']' || c = '^' || c = '|' || c = '%'

/-- Modelled from the spec: validity of the authority component of a special
scheme: after stripping user information, a bracketed address or a nonempty
host of permitted characters with an optional all-digit port. -/
def hostPortOk (authority : List Char) : Bool :=
  let hp := ((authority.reverse).takeWhile (fun c => c ≠ '@')).reverse
  match hp with
  | '[' :: rest => rest.contains ']'
  | _ =>
    let host := hp.takeWhile (fun c => c ≠ ':')
    let portRest := hp.dropWhile (fun c => c ≠ ':')
    let portOk :=
      match portRest with
      | [] => true
      | _ :: p => p.all Char.isDigit
    !host.isEmpty && host.all (fun c => !forbiddenHostChar c) && portOk

/-- Control and space characters trimmed from URL input. -/
def isC0OrSpace (c : Char) : Bool := c.toNat ≤ 32

/-- Modelled from the spec: success of `new URL(s)` with no base.  The input
is trimmed of control characters and spaces and stripped of tabs and
newlines; it must start with a scheme followed by a colon, and for the
special schemes the authority after the optional slashes must carry a valid
nonempty host.  The handlers discard the parsed URL and only branch on
success, so only acceptance matters to the program. -/
def isValidURL (s : String) : Bool :=
  let cs0 := ((s.toList.dropWhile isC0OrSpace).reverse.dropWhile isC0OrSpace).reverse
  let cs := cs0.filter (fun c => c.toNat ≠ 9 && c.toNat ≠ 10 && c.toNat ≠ 13)
  match cs with
  | [] => false
  | c :: rest =>
    if c.isAlpha then
      let schemeRest := rest.takeWhile isSchemeChar
      let afterScheme := rest.dropWhile isSchemeChar
      match afterScheme with
      | ':' :: tail =>
        let scheme := String.mk ((c :: schemeRest).map Char.toLower)
        if specialSchemes.contains scheme then
          let afterSlashes := tail.dropWhile (fun d => d = '/' || d = '\\')
          let authority := afterSlashes.takeWhile
            (fun d => d ≠ '/' && d ≠ '\\' && d ≠ '?' && d ≠ '#')
          hostPortOk authority
        else true
      | _ => false
    else false

/-- Color options handed to the qrcode library (src/types.ts). -/
structure ColorOptions where
  dark : String
  light : String
deriving DecidableEq

/-- Options handed to the qrcode library (src/types.ts): pixel width, quiet
zone margin in modules, colors. -/
structure QRCodeOptions where
  width : JSNum
  margin : Nat
  color : ColorOptions
deriving DecidableEq

/-- The options object both handlers build: margin 2, dark opaque black,
light transparent white or opaque white according to the transparency flag. -/
def mkOptions (w : JSNum) (transparent : Bool) : QRCodeOptions :=
  ⟨w, 2, ⟨"#000000", if transparent then "#FFFFFF00" else "#FFFFFF"⟩⟩

/-- Which qrcode library operation a handler invoked. -/
inductive RenderKind where
  | dataURL : RenderKind
  | svgString : RenderKind
  | buffer : RenderKind
deriving DecidableEq

/-- One invocation of the external QR-rendering capability: the operation,
the text to encode and the options passed. -/
structure RenderCall where
  kind : RenderKind
  text : String
  options : QRCodeOptions
deriving DecidableEq

/-- The external qrcode library, as an abstract collaborator: each
operation is a function of the text and options, returning the payload or
an internal error.  Modelling the collaborator as a function makes every
render call synchronous and deterministic, matching the spec. -/
structure Encoder where
  toDataURL : String → QRCodeOptions → Except String String
  toSVGString : String → QRCodeOptions → Except String String
  toBuffer : String → QRCodeOptions → Except String (List Nat)

/-- JSON values as the handlers emit them: a primitive JavaScript value or
an object with ordered fields. -/
inductive Json where
  | prim : JSVal → Json
  | obj : List (String × Json) → Json

/-- An HTTP response: a JSON body with status, or a text or byte body with
status and content type. -/
inductive HttpResponse where
  | json : Nat → Json → HttpResponse
  | text : Nat → String → String → HttpResponse
  | bytes : Nat → String → List Nat → HttpResponse

/-- The error body shape used throughout the handlers. -/
def errBody (e m : String) : Json :=
  .obj [("error", .prim (.strV e)), ("message", .prim (.strV m))]

/-- POST missing-url response (MissingTarget). -/
def urlRequiredPostResponse : HttpResponse :=
  .json 400 (errBody "URL is required" "Please provide a URL to generate QR code")

/-- GET missing-url response (MissingTarget). -/
def urlRequiredGetResponse : HttpResponse :=
  .json 400 (errBody "URL parameter is required"
    "Usage: /qr?url=https://example.com&format=png&size=200&transparent=false")

/-- Unparseable-url response (InvalidTarget), shared by both handlers. -/
def invalidURLResponse : HttpResponse :=
  .json 400 (errBody "Invalid URL format" "Please provide a valid URL")

/-- Bad-format response (InvalidFormat), shared by both handlers. -/
def invalidFormatResponse : HttpResponse :=
  .json 400 (errBody "Invalid format" "Format must be either \"png\" or \"svg\"")

/-- Bad-size response (InvalidSize), shared by both handlers. -/
def invalidSizeResponse : HttpResponse :=
  .json 400 (errBody "Invalid size" "Size must be a number between 100 and 1000")

/-- The one internal-error response both catch blocks produce. -/
def internalErrorResponse : HttpResponse :=
  .json 500 (errBody "Internal server error" "Failed to generate QR code")

/-- Raw parsed JSON body of POST /generate-qr: each field is an untyped
JavaScript value, undefined when absent. -/
structure PostBody where
  url : JSVal
  format : JSVal
  size : JSVal
  transparentBackground : JSVal

/-- Success JSON body of the POST raster path, field for field as the
handler builds it. -/
def postSuccessBody (url : JSVal) (dataURL : String) (format : JSVal) (sizeNum : JSNum)
    (transparentBackground : JSVal) : Json :=
  .obj [("success", .prim (.boolV true)), ("url", .prim url),
    ("qrCode", .prim (.strV dataURL)), ("format", .prim format),
    ("size", .prim (.numV sizeNum)),
    ("transparentBackground", .prim transparentBackground)]

/-- The POST /generate-qr handler of src/server.ts, returning the response
together with the trace of external render calls.  Destructuring defaults,
the four checks in source order, the options object and the two dispatch
branches follow the source line by line; the try/catch around the body maps
any renderer failure to the fixed internal error response. -/
def handlePost (enc : Encoder) (b : PostBody) : HttpResponse × List RenderCall :=
  let url := b.url
  let format := defaultTo b.format (.strV "png")
  let size := defaultTo b.size (.numV (.finite 200))
  let transparentBackground := defaultTo b.transparentBackground (.boolV false)
  if !(truthy url) then (urlRequiredPostResponse, [])
  else if !(isValidURL (jsToString url)) then (invalidURLResponse, [])
  else if !(jsEqStr format "png") && !(jsEqStr format "svg") then (invalidFormatResponse, [])
  else
    let sizeNum := toNumber size
    if sizeOutOfRange sizeNum then (invalidSizeResponse, [])
    else
      let options := mkOptions sizeNum (truthy transparentBackground)
      if jsEqStr format "svg" then
        match enc.toSVGString (jsToString url) options with
        | .ok svg => (.text 200 "image/svg+xml" svg, [⟨.svgString, jsToString url, options⟩])
        | .error _ => (internalErrorResponse, [⟨.svgString, jsToString url, options⟩])
      else
        match enc.toDataURL (jsToString url) options with
        | .ok d =>
          (.json 200 (postSuccessBody url d format sizeNum transparentBackground),
            [⟨.dataURL, jsToString url, options⟩])
        | .error _ => (internalErrorResponse, [⟨.dataURL, jsToString url, options⟩])

/-- Raw query of GET /qr: express delivers each parameter as a string when
present (src/types.ts QRCodeQueryParams). -/
structure QrQuery where
  url : Option String
  format : Option String
  size : Option String
  transparent : Option String

/-- The GET /qr handler of src/server.ts, returning the response together
with the trace of external render calls.  Note the falsiness test on url
also rejects the present-but-empty string, the size goes through parseInt
and the transparency flag through exact string comparison with true. -/
def handleGet (enc : Encoder) (q : QrQuery) : HttpResponse × List RenderCall :=
  let url := q.url.getD ""
  let format := q.format.getD "png"
  let size := q.size.getD "200"
  let transparent := q.transparent.getD "false"
  if url == "" then (urlRequiredGetResponse, [])
  else if !(isValidURL url) then (invalidURLResponse, [])
  else if !(format == "png") && !(format == "svg") then (invalidFormatResponse, [])
  else
    let sizeNum := parseIntJS size
    if sizeOutOfRange sizeNum then (invalidSizeResponse, [])
    else
      let transparentBackground := transparent == "true"
      let options := mkOptions sizeNum transparentBackground
      if format == "svg" then
        match enc.toSVGString url options with
        | .ok svg => (.text 200 "image/svg+xml" svg, [⟨.svgString, url, options⟩])
        | .error _ => (internalErrorResponse, [⟨.svgString, url, options⟩])
      else
        match enc.toBuffer url options with
        | .ok bs => (.bytes 200 "image/png" bs, [⟨.buffer, url, options⟩])
        | .error _ => (internalErrorResponse, [⟨.buffer, url, options⟩])

/-- A concrete collaborator used to instantiate theorems at concrete
inputs: every operation succeeds with a fixed payload of the right shape. -/
def mockEncoder : Encoder :=
  ⟨fun _ _ => .ok "data:image/png;base64,iVBORw0KGgoMOCK",
   fun _ _ => .ok "<svg xmlns=\"http://www.w3.org/2000/svg\"></svg>",
   fun _ _ => .ok [137, 80, 78, 71]⟩

/-- A concrete collaborator whose every operation fails, to instantiate the
error-path theorems. -/
def failEncoder : Encoder :=
  ⟨fun _ _ => .error "boom-dataurl",
   fun _ _ => .error "boom-svg",
   fun _ _ => .error "boom-buffer"⟩

/-- Format value after the POST destructuring default. -/
def postFormat (b : PostBody) : JSVal := defaultTo b.format (.strV "png")

/-- Coerced size on the POST path: `Number` applied after the default 200. -/
def postSizeNum (b : PostBody) : JSNum := toNumber (defaultTo b.size (.numV (.finite 200)))

/-- Transparency value after the POST destructuring default. -/
def postTransparent (b : PostBody) : JSVal := defaultTo b.transparentBackground (.boolV false)

/-- The options object the POST handler builds. -/
def postOptions (b : PostBody) : QRCodeOptions :=
  mkOptions (postSizeNum b) (truthy (postTransparent b))

/-- Format string after the GET destructuring default. -/
def getFormat (q : QrQuery) : String := q.format.getD "png"

/-- Coerced size on the GET path: parseInt applied after the default 200. -/
def getSizeNum (q : QrQuery) : JSNum := parseIntJS (q.size.getD "200")

/-- Transparency flag on the GET path: exact string comparison with true. -/
def getTransparent (q : QrQuery) : Bool := (q.transparent.getD "false") == "true"

/-- The options object the GET handler builds. -/
def getOptions (q : QrQuery) : QRCodeOptions := mkOptions (getSizeNum q) (getTransparent q)

theorem isValidURL_ne_empty {u : String} (h : isValidURL u = true) : u ≠ "" := by
  intro h0
  rw [h0] at h
  exact absurd h (by decide)

theorem handlePost_missing (enc : Encoder) (b : PostBody) (h : truthy b.url = false) :
    handlePost enc b = (urlRequiredPostResponse, []) := by
  simp [handlePost, h]

theorem handleGet_missing (enc : Encoder) (q : QrQuery) (h : q.url.getD "" = "") :
    handleGet enc q = (urlRequiredGetResponse, []) := by
  simp [handleGet, h]

theorem handlePost_invalid_format (enc : Encoder) (b : PostBody) (u : String)
    (hu : b.url = .strV u) (hv : isValidURL u = true)
    (hp : jsEqStr (postFormat b) "png" = false) (hs : jsEqStr (postFormat b) "svg" = false) :
    handlePost enc b = (invalidFormatResponse, []) := by
  have hne := isValidURL_ne_empty hv
  simp only [postFormat] at hp hs
  simp [handlePost, hu, truthy, hne, jsToString, hv, hp, hs]

theorem handleGet_invalid_format (enc : Encoder) (q : QrQuery) (u : String)
    (hu : q.url = some u) (hv : isValidURL u = true)
    (hp : (getFormat q == "png") = false) (hs : (getFormat q == "svg") = false) :
    handleGet enc q = (invalidFormatResponse, []) := by
  have hne := isValidURL_ne_empty hv
  simp only [getFormat] at hp hs
  simp [handleGet, hu, hne, hv, hp, hs]

theorem handlePost_invalid_size (enc : Encoder) (b : PostBody) (u : String)
    (hu : b.url = .strV u) (hv : isValidURL u = true)
    (hf : postFormat b = .strV "png" ∨ postFormat b = .strV "svg")
    (hsz : sizeOutOfRange (postSizeNum b) = true) :
    handlePost enc b = (invalidSizeResponse, []) := by
  have hne := isValidURL_ne_empty hv
  simp only [postFormat] at hf
  simp only [postSizeNum] at hsz
  rcases hf with hf | hf <;>
    simp [handlePost, hu, truthy, hne, jsToString, hv, hf, jsEqStr, hsz]

theorem handleGet_invalid_size (enc : Encoder) (q : QrQuery) (u : String)
    (hu : q.url = some u) (hv : isValidURL u = true)
    (hf : getFormat q = "png" ∨ getFormat q = "svg")
    (hsz : sizeOutOfRange (getSizeNum q) = true) :
    handleGet enc q = (invalidSizeResponse, []) := by
  have hne := isValidURL_ne_empty hv
  simp only [getFormat] at hf
  simp only [getSizeNum] at hsz
  rcases hf with hf | hf <;> simp [handleGet, hu, hne, hv, hf, hsz]

theorem handlePost_png_run (enc : Encoder) (b : PostBody) (u : String)
    (hu : b.url = .strV u) (hv : isValidURL u = true)
    (hf : postFormat b = .strV "png")
    (hsz : sizeOutOfRange (postSizeNum b) = false) :
    handlePost enc b =
      (match enc.toDataURL u (postOptions b) with
       | .ok d =>
         (.json 200 (postSuccessBody b.url d (postFormat b) (postSizeNum b) (postTransparent b)),
           [⟨.dataURL, u, postOptions b⟩])
       | .error _ => (internalErrorResponse, [⟨.dataURL, u, postOptions b⟩])) := by
  have hne := isValidURL_ne_empty hv
  simp only [postFormat] at hf
  simp only [postSizeNum] at hsz
  simp [handlePost, hu, truthy, hne, jsToString, hv, hf, jsEqStr, hsz, postOptions,
    postSizeNum, postTransparent, postFormat]

theorem handlePost_svg_run (enc : Encoder) (b : PostBody) (u : String)
    (hu : b.url = .strV u) (hv : isValidURL u = true)
    (hf : postFormat b = .strV "svg")
    (hsz : sizeOutOfRange (postSizeNum b) = false) :
    handlePost enc b =
      (match enc.toSVGString u (postOptions b) with
       | .ok svg => (.text 200 "image/svg+xml" svg, [⟨.svgString, u, postOptions b⟩])
       | .error _ => (internalErrorResponse, [⟨.svgString, u, postOptions b⟩])) := by
  have hne := isValidURL_ne_empty hv
  simp only [postFormat] at hf
  simp only [postSizeNum] at hsz
  simp [handlePost, hu, truthy, hne, jsToString, hv, hf, jsEqStr, hsz, postOptions,
    postSizeNum, postTransparent, postFormat]

theorem handleGet_png_run (enc : Encoder) (q : QrQuery) (u : String)
    (hu : q.url = some u) (hv : isValidURL u = true)
    (hf : getFormat q = "png")
    (hsz : sizeOutOfRange (getSizeNum q) = false) :
    handleGet enc q =
      (match enc.toBuffer u (getOptions q) with
       | .ok bs => (.bytes 200 "image/png" bs, [⟨.buffer, u, getOptions q⟩])
       | .error _ => (internalErrorResponse, [⟨.buffer, u, getOptions q⟩])) := by
  have hne := isValidURL_ne_empty hv
  simp only [getFormat] at hf
  simp only [getSizeNum] at hsz
  simp [handleGet, hu, hne, hv, hf, hsz, getOptions, getSizeNum, getTransparent, getFormat]

theorem handleGet_svg_run (enc : Encoder) (q : QrQuery) (u : String)
    (hu : q.url = some u) (hv : isValidURL u = true)
    (hf : getFormat q = "svg")
    (hsz : sizeOutOfRange (getSizeNum q) = false) :
    handleGet enc q =
      (match enc.toSVGString u (getOptions q) with
       | .ok svg => (.text 200 "image/svg+xml" svg, [⟨.svgString, u, getOptions q⟩])
       | .error _ => (internalErrorResponse, [⟨.svgString, u, getOptions q⟩])) := by
  have hne := isValidURL_ne_empty hv
  simp only [getFormat] at hf
  simp only [getSizeNum] at hsz
  simp [handleGet, hu, hne, hv, hf, hsz, getOptions, getSizeNum, getTransparent, getFormat]

theorem handlePost_trace (enc : Encoder) (b : PostBody) (u : String)
    (hu : b.url = .strV u) (hv : isValidURL u = true)
    (hf : postFormat b = .strV "png" ∨ postFormat b = .strV "svg")
    (hsz : sizeOutOfRange (postSizeNum b) = false) :
    (handlePost enc b).2 =
      [⟨(if postFormat b = .strV "svg" then .svgString else .dataURL), u, postOptions b⟩] := by
  rcases hf with hf | hf
  · rw [handlePost_png_run enc b u hu hv hf hsz]
    cases h : enc.toDataURL u (postOptions b) <;> simp [hf]
  · rw [handlePost_svg_run enc b u hu hv hf hsz]
    cases h : enc.toSVGString u (postOptions b) <;> simp [hf]

theorem handleGet_trace (enc : Encoder) (q : QrQuery) (u : String)
    (hu : q.url = some u) (hv : isValidURL u = true)
    (hf : getFormat q = "png" ∨ getFormat q = "svg")
    (hsz : sizeOutOfRange (getSizeNum q) = false) :
    (handleGet enc q).2 =
      [⟨(if getFormat q = "svg" then .svgString else .buffer), u, getOptions q⟩] := by
  rcases hf with hf | hf
  · rw [handleGet_png_run enc q u hu hv hf hsz]
    cases h : enc.toBuffer u (getOptions q) <;> simp [hf]
  · rw [handleGet_svg_run enc q u hu hv hf hsz]
    cases h : enc.toSVGString u (getOptions q) <;> simp [hf]

theorem sizeOutOfRange_false_of_bounds {s : ℚ} (h1 : 100 ≤ s) (h2 : s ≤ 1000) :
    sizeOutOfRange (.finite s) = false := by
  simp only [sizeOutOfRange, jsIsNaN, jsNumLt, jsNumGt, Bool.or_eq_false_iff,
    decide_eq_false_iff_not, not_lt]
  exact ⟨⟨trivial, h1⟩, h2⟩

theorem handlePost_at_most_one_call (enc : Encoder) (b : PostBody) :
    (handlePost enc b).2.length ≤ 1 := by
  simp only [handlePost]
  repeat' split
  all_goals simp

theorem handleGet_at_most_one_call (enc : Encoder) (q : QrQuery) :
    (handleGet enc q).2.length ≤ 1 := by
  simp only [handleGet]
  repeat' split
  all_goals simp

theorem handlePost_mem_options (enc : Encoder) (b : PostBody) (c : RenderCall)
    (h : c ∈ (handlePost enc b).2) :
    c.options = postOptions b ∧ c.text = jsToString b.url := by
  simp only [handlePost] at h
  repeat' split at h
  all_goals simp at h
  all_goals subst h
  all_goals simp [postOptions, postSizeNum, postTransparent, mkOptions]

theorem handleGet_mem_options (enc : Encoder) (q : QrQuery) (c : RenderCall)
    (h : c ∈ (handleGet enc q).2) :
    c.options = getOptions q ∧ c.text = q.url.getD "" := by
  simp only [handleGet] at h
  repeat' split at h
  all_goals simp at h
  all_goals subst h
  all_goals simp [getOptions, getSizeNum, getTransparent, mkOptions]

/-- C1: the validator applies its rules in the fixed order MissingTarget,
InvalidTarget, InvalidFormat, InvalidSize and the first failure wins: an
absent or empty target yields the missing-target response whatever the other
fields hold, and a present parseable target with an unrecognized format and
an out-of-range size yields the invalid-format response, not the
invalid-size one, on both endpoints. -/
theorem claim_validation_order (enc : Encoder) (b : PostBody) (q : QrQuery) :
    ((b.url = JSVal.undef ∨ b.url = JSVal.strV "") →
      handlePost enc b = (urlRequiredPostResponse, [])) ∧
    (∀ u : String, b.url = JSVal.strV u → isValidURL u = true →
      jsEqStr (postFormat b) "png" = false → jsEqStr (postFormat b) "svg" = false →
      sizeOutOfRange (postSizeNum b) = true →
      handlePost enc b = (invalidFormatResponse, [])) ∧
    ((q.url = none ∨ q.url = some "") → handleGet enc q = (urlRequiredGetResponse, [])) ∧
    (∀ u : String, q.url = some u → isValidURL u = true →
      (getFormat q == "png") = false → (getFormat q == "svg") = false →
      sizeOutOfRange (getSizeNum q) = true →
      handleGet enc q = (invalidFormatResponse, [])) := by
  refine ⟨?_, ?_, ?_, ?_⟩
  · intro h
    apply handlePost_missing
    rcases h with h | h <;> simp [h, truthy]
  · intro u hu hv hp hs _
    exact handlePost_invalid_format enc b u hu hv hp hs
  · intro h
    apply handleGet_missing
    rcases h with h | h <;> simp [h]
  · intro u hu hv hp hs _
    exact handleGet_invalid_format enc q u hu hv hp hs

/-- Witness for C1 at concrete inputs: an absent url wins over a bad format
and a bad size, and with a valid url the bad format wins over the bad
size, on both endpoints. -/
theorem claim_validation_order_witness :
    handlePost mockEncoder
        ⟨JSVal.undef, JSVal.strV "jpeg", JSVal.numV (JSNum.finite 50), JSVal.undef⟩ =
      (urlRequiredPostResponse, []) ∧
    handlePost mockEncoder
        ⟨JSVal.strV "https://example.com", JSVal.strV "jpeg", JSVal.numV (JSNum.finite 50),
          JSVal.undef⟩ =
      (invalidFormatResponse, []) ∧
    handleGet mockEncoder ⟨none, some "jpeg", some "50", none⟩ = (urlRequiredGetResponse, []) ∧
    handleGet mockEncoder ⟨some "https://example.com", some "jpeg", some "50", none⟩ =
      (invalidFormatResponse, []) := by
  refine ⟨?_, ?_, ?_, ?_⟩
  · exact (claim_validation_order mockEncoder
      ⟨JSVal.undef, JSVal.strV "jpeg", JSVal.numV (JSNum.finite 50), JSVal.undef⟩
      ⟨none, some "jpeg", some "50", none⟩).1 (Or.inl rfl)
  · exact (claim_validation_order mockEncoder
      ⟨JSVal.strV "https://example.com", JSVal.strV "jpeg", JSVal.numV (JSNum.finite 50),
        JSVal.undef⟩
      ⟨none, some "jpeg", some "50", none⟩).2.1 "https://example.com" rfl (by decide)
      (by decide) (by decide) (by decide)
  · exact (claim_validation_order mockEncoder
      ⟨JSVal.undef, JSVal.undef, JSVal.undef, JSVal.undef⟩
      ⟨none, some "jpeg", some "50", none⟩).2.2.1 (Or.inl rfl)
  · exact (claim_validation_order mockEncoder
      ⟨JSVal.undef, JSVal.undef, JSVal.undef, JSVal.undef⟩
      ⟨some "https://example.com", some "jpeg", some "50", none⟩).2.2.2 "https://example.com"
      rfl (by decide) (by decide) (by decide) (by decide)

/-- C2: with a valid target and a recognized format, a raw size whose
coercion fails or lands strictly below 100 or strictly above 1000 draws the
invalid-size response, and an absent size defaults to 200 and passes
validation, with the render call carrying width 200, on both endpoints. -/
theorem claim_size_validation (enc : Encoder) (b : PostBody) (q : QrQuery) :
    (∀ u : String, b.url = JSVal.strV u → isValidURL u = true →
      (postFormat b = JSVal.strV "png" ∨ postFormat b = JSVal.strV "svg") →
      (sizeOutOfRange (postSizeNum b) = true →
        handlePost enc b = (invalidSizeResponse, [])) ∧
      (b.size = JSVal.undef →
        ∃ c, (handlePost enc b).2 = [c] ∧ c.options.width = JSNum.finite 200)) ∧
    (∀ u : String, q.url = some u → isValidURL u = true →
      (getFormat q = "png" ∨ getFormat q = "svg") →
      (sizeOutOfRange (getSizeNum q) = true →
        handleGet enc q = (invalidSizeResponse, [])) ∧
      (q.size = none →
        ∃ c, (handleGet enc q).2 = [c] ∧ c.options.width = JSNum.finite 200)) := by
  constructor
  · intro u hu hv hf
    constructor
    · intro hsz
      exact handlePost_invalid_size enc b u hu hv hf hsz
    · intro hsize
      have hs200 : postSizeNum b = JSNum.finite 200 := by
        simp [postSizeNum, hsize, defaultTo, toNumber]
      have hsz : sizeOutOfRange (postSizeNum b) = false := by rw [hs200]; decide
      refine ⟨_, handlePost_trace enc b u hu hv hf hsz, ?_⟩
      simp [postOptions, mkOptions, hs200]
  · intro u hu hv hf
    constructor
    · intro hsz
      exact handleGet_invalid_size enc q u hu hv hf hsz
    · intro hsize
      have hs200 : getSizeNum q = JSNum.finite 200 := by
        simp only [getSizeNum, hsize, Option.getD_none]
        decide
      have hsz : sizeOutOfRange (getSizeNum q) = false := by rw [hs200]; decide
      refine ⟨_, handleGet_trace enc q u hu hv hf hsz, ?_⟩
      simp [getOptions, mkOptions, hs200]

/-- Witness for C2 at concrete inputs: a non-numeric size string draws the
invalid-size response, an in-range check rejects 50, and an absent size
renders at width 200, on both endpoints. -/
theorem claim_size_validation_witness :
    handlePost mockEncoder
        ⟨JSVal.strV "https://example.com", JSVal.undef, JSVal.strV "abc", JSVal.undef⟩ =
      (invalidSizeResponse, []) ∧
    (∃ c, (handlePost mockEncoder
        ⟨JSVal.strV "https://example.com", JSVal.undef, JSVal.undef, JSVal.undef⟩).2 = [c] ∧
      c.options.width = JSNum.finite 200) ∧
    handleGet mockEncoder ⟨some "https://example.com", none, some "50", none⟩ =
      (invalidSizeResponse, []) ∧
    (∃ c, (handleGet mockEncoder ⟨some "https://example.com", none, none, none⟩).2 = [c] ∧
      c.options.width = JSNum.finite 200) := by
  refine ⟨?_, ?_, ?_, ?_⟩
  · exact ((claim_size_validation mockEncoder
      ⟨JSVal.strV "https://example.com", JSVal.undef, JSVal.strV "abc", JSVal.undef⟩
      ⟨none, none, none, none⟩).1 "https://example.com" rfl (by decide)
      (Or.inl (by decide))).1 (by decide)
  · exact ((claim_size_validation mockEncoder
      ⟨JSVal.strV "https://example.com", JSVal.undef, JSVal.undef, JSVal.undef⟩
      ⟨none, none, none, none⟩).1 "https://example.com" rfl (by decide)
      (Or.inl (by decide))).2 rfl
  · exact ((claim_size_validation mockEncoder
      ⟨JSVal.undef, JSVal.undef, JSVal.undef, JSVal.undef⟩
      ⟨some "https://example.com", none, some "50", none⟩).2 "https://example.com" rfl
      (by decide) (Or.inl (by decide))).1 (by decide)
  · exact ((claim_size_validation mockEncoder
      ⟨JSVal.undef, JSVal.undef, JSVal.undef, JSVal.undef⟩
      ⟨some "https://example.com", none, none, none⟩).2 "https://example.com" rfl
      (by decide) (Or.inl (by decide))).2 rfl

/-- C3: with a valid target, a present format value that is a string other
than the exact literals png and svg draws the invalid-format response, and
an absent format defaults to png, sending the request down the raster
branch, on both endpoints. -/
theorem claim_format_validation (enc : Encoder) (b : PostBody) (q : QrQuery) :
    (∀ u f : String, b.url = JSVal.strV u → isValidURL u = true →
      b.format = JSVal.strV f → f ≠ "png" → f ≠ "svg" →
      handlePost enc b = (invalidFormatResponse, [])) ∧
    (∀ u : String, b.url = JSVal.strV u → isValidURL u = true →
      b.format = JSVal.undef → sizeOutOfRange (postSizeNum b) = false →
      (handlePost enc b).2 = [⟨RenderKind.dataURL, u, postOptions b⟩]) ∧
    (∀ u f : String, q.url = some u → isValidURL u = true →
      q.format = some f → f ≠ "png" → f ≠ "svg" →
      handleGet enc q = (invalidFormatResponse, [])) ∧
    (∀ u : String, q.url = some u → isValidURL u = true →
      q.format = none → sizeOutOfRange (getSizeNum q) = false →
      (handleGet enc q).2 = [⟨RenderKind.buffer, u, getOptions q⟩]) := by
  refine ⟨?_, ?_, ?_, ?_⟩
  · intro u f hu hv hf hfp hfs
    refine handlePost_invalid_format enc b u hu hv ?_ ?_ <;>
      simp [postFormat, hf, defaultTo, jsEqStr, hfp, hfs]
  · intro u hu hv hf hsz
    have hpf : postFormat b = JSVal.strV "png" := by simp [postFormat, hf, defaultTo]
    rw [handlePost_trace enc b u hu hv (Or.inl hpf) hsz]
    simp [hpf]
  · intro u f hu hv hf hfp hfs
    refine handleGet_invalid_format enc q u hu hv ?_ ?_ <;>
      simp [getFormat, hf, hfp, hfs]
  · intro u hu hv hf hsz
    have hpf : getFormat q = "png" := by simp [getFormat, hf]
    rw [handleGet_trace enc q u hu hv (Or.inl hpf) hsz]
    simp [hpf]

/-- Witness for C3 at concrete inputs: the uppercase PNG and the string
jpeg are rejected case-sensitively, and an absent format renders through
the raster branch, on both endpoints. -/
theorem claim_format_validation_witness :
    handlePost mockEncoder
        ⟨JSVal.strV "https://example.com", JSVal.strV "PNG", JSVal.undef, JSVal.undef⟩ =
      (invalidFormatResponse, []) ∧
    (handlePost mockEncoder
        ⟨JSVal.strV "https://example.com", JSVal.undef, JSVal.undef, JSVal.undef⟩).2 =
      [⟨RenderKind.dataURL, "https://example.com",
        postOptions ⟨JSVal.strV "https://example.com", JSVal.undef, JSVal.undef, JSVal.undef⟩⟩] ∧
    handleGet mockEncoder ⟨some "https://example.com", some "jpeg", none, none⟩ =
      (invalidFormatResponse, []) ∧
    (handleGet mockEncoder ⟨some "https://example.com", none, none, none⟩).2 =
      [⟨RenderKind.buffer, "https://example.com",
        getOptions ⟨some "https://example.com", none, none, none⟩⟩] := by
  refine ⟨?_, ?_, ?_, ?_⟩
  · exact (claim_format_validation mockEncoder
      ⟨JSVal.strV "https://example.com", JSVal.strV "PNG", JSVal.undef, JSVal.undef⟩
      ⟨none, none, none, none⟩).1 "https://example.com" "PNG" rfl (by decide) rfl
      (by decide) (by decide)
  · exact (claim_format_validation mockEncoder
      ⟨JSVal.strV "https://example.com", JSVal.undef, JSVal.undef, JSVal.undef⟩
      ⟨none, none, none, none⟩).2.1 "https://example.com" rfl (by decide) rfl (by decide)
  · exact (claim_format_validation mockEncoder
      ⟨JSVal.undef, JSVal.undef, JSVal.undef, JSVal.undef⟩
      ⟨some "https://example.com", some "jpeg", none, none⟩).2.2.1 "https://example.com"
      "jpeg" rfl (by decide) rfl (by decide) (by decide)
  · exact (claim_format_validation mockEncoder
      ⟨JSVal.undef, JSVal.undef, JSVal.undef, JSVal.undef⟩
      ⟨some "https://example.com", none, none, none⟩).2.2.2 "https://example.com" rfl
      (by decide) rfl (by decide)

/-- C4 counterexample: on the POST body path the handler does not coerce
the transparency flag by exact string match; it uses the raw value's
truthiness.  With the string false as the raw value the render call is
built with the fully transparent background color, where the claim demands
the behavior of a false flag, namely the opaque one. -/
theorem claim_transparent_coercion_counterexample :
    (handlePost mockEncoder
        ⟨JSVal.strV "https://example.com", JSVal.undef, JSVal.undef, JSVal.strV "false"⟩).2.map
        (fun c => c.options.color.light) = ["#FFFFFF00"] ∧
    ("#FFFFFF00" : String) ≠ "#FFFFFF" := by
  exact ⟨rfl, by decide⟩

/-- C4 amended: the GET query path coerces exactly as claimed, the string
true and nothing else giving a transparent background; the POST body path
instead applies JavaScript truthiness to the raw transparentBackground
value after defaulting absence to the boolean false, so the boolean true
gives transparency but so does every other truthy value, the nonempty
string false included.  Neither coercion can fail. -/
theorem claim_transparent_coercion_amended (enc : Encoder) (b : PostBody) (q : QrQuery) :
    (∀ u : String, b.url = JSVal.strV u → isValidURL u = true →
      (postFormat b = JSVal.strV "png" ∨ postFormat b = JSVal.strV "svg") →
      sizeOutOfRange (postSizeNum b) = false →
      (handlePost enc b).2.map (fun c => c.options.color.light) =
        [if truthy (postTransparent b) then "#FFFFFF00" else "#FFFFFF"]) ∧
    (∀ u : String, q.url = some u → isValidURL u = true →
      (getFormat q = "png" ∨ getFormat q = "svg") →
      sizeOutOfRange (getSizeNum q) = false →
      (handleGet enc q).2.map (fun c => c.options.color.light) =
        [if getTransparent q then "#FFFFFF00" else "#FFFFFF"]) ∧
    (b.transparentBackground = JSVal.undef → truthy (postTransparent b) = false) ∧
    (q.transparent = none → getTransparent q = false) := by
  refine ⟨?_, ?_, ?_, ?_⟩
  · intro u hu hv hf hsz
    rw [handlePost_trace enc b u hu hv hf hsz]
    simp [postOptions, mkOptions]
  · intro u hu hv hf hsz
    rw [handleGet_trace enc q u hu hv hf hsz]
    simp [getOptions, mkOptions]
  · intro h
    simp [postTransparent, h, defaultTo, truthy]
  · intro h
    simp [getTransparent, h]

/-- Witness for the amended C4 at concrete inputs: the GET path with
transparent equal to the string true renders on the transparent
background, and an absent POST flag is false. -/
theorem claim_transparent_coercion_amended_witness :
    (handleGet mockEncoder ⟨some "https://example.com", none, none, some "true"⟩).2.map
        (fun c => c.options.color.light) = ["#FFFFFF00"] ∧
    truthy (postTransparent
      ⟨JSVal.strV "https://example.com", JSVal.undef, JSVal.undef, JSVal.undef⟩) = false := by
  constructor
  · exact (claim_transparent_coercion_amended mockEncoder
      ⟨JSVal.undef, JSVal.undef, JSVal.undef, JSVal.undef⟩
      ⟨some "https://example.com", none, none, some "true"⟩).2.1 "https://example.com" rfl
      (by decide) (Or.inl (by decide)) (by decide)
  · exact (claim_transparent_coercion_amended mockEncoder
      ⟨JSVal.strV "https://example.com", JSVal.undef, JSVal.undef, JSVal.undef⟩
      ⟨none, none, none, none⟩).2.2.1 rfl

/-- C5: for a valid absolute URL and an accepted size the validation
succeeds and the target string is passed to the renderer character for
character and echoed back unchanged in the JSON url field; no
normalization of any kind happens anywhere in the handlers. -/
theorem claim_target_preserved (enc : Encoder) (b : PostBody) (q : QrQuery) :
    (∀ (u : String) (s : ℚ) (d : String), b.url = JSVal.strV u → isValidURL u = true →
      postFormat b = JSVal.strV "png" →
      postSizeNum b = JSNum.finite s → 100 ≤ s → s ≤ 1000 →
      (handlePost enc b).2 = [⟨RenderKind.dataURL, u, postOptions b⟩] ∧
      (enc.toDataURL u (postOptions b) = Except.ok d →
        (handlePost enc b).1 =
          HttpResponse.json 200
            (postSuccessBody (JSVal.strV u) d (JSVal.strV "png") (JSNum.finite s)
              (postTransparent b)))) ∧
    (∀ (u : String) (s : ℚ), q.url = some u → isValidURL u = true →
      (getFormat q = "png" ∨ getFormat q = "svg") →
      getSizeNum q = JSNum.finite s → 100 ≤ s → s ≤ 1000 →
      (handleGet enc q).2.map (fun c => c.text) = [u]) := by
  constructor
  · intro u s d hu hv hf hs h1 h2
    have hsz : sizeOutOfRange (postSizeNum b) = false := by
      rw [hs]; exact sizeOutOfRange_false_of_bounds h1 h2
    constructor
    · rw [handlePost_trace enc b u hu hv (Or.inl hf) hsz]
      simp [hf]
    · intro henc
      rw [handlePost_png_run enc b u hu hv hf hsz, henc]
      rw [hu, hf, hs]
  · intro u s hu hv hf hs h1 h2
    have hsz : sizeOutOfRange (getSizeNum q) = false := by
      rw [hs]; exact sizeOutOfRange_false_of_bounds h1 h2
    rw [handleGet_trace enc q u hu hv hf hsz]
    simp

/-- Witness for C5 at a concrete input: a URL with trailing slash and
percent-encoded path is neither stripped nor decoded on its way to the
renderer and back into the JSON echo. -/
theorem claim_target_preserved_witness :
    (handlePost mockEncoder
        ⟨JSVal.strV "https://example.com/a%20b/", JSVal.undef, JSVal.numV (JSNum.finite 300),
          JSVal.undef⟩).2 =
      [⟨RenderKind.dataURL, "https://example.com/a%20b/",
        postOptions ⟨JSVal.strV "https://example.com/a%20b/", JSVal.undef,
          JSVal.numV (JSNum.finite 300), JSVal.undef⟩⟩] ∧
    (handlePost mockEncoder
        ⟨JSVal.strV "https://example.com/a%20b/", JSVal.undef, JSVal.numV (JSNum.finite 300),
          JSVal.undef⟩).1 =
      HttpResponse.json 200
        (postSuccessBody (JSVal.strV "https://example.com/a%20b/")
          "data:image/png;base64,iVBORw0KGgoMOCK" (JSVal.strV "png") (JSNum.finite 300)
          (postTransparent ⟨JSVal.strV "https://example.com/a%20b/", JSVal.undef,
            JSVal.numV (JSNum.finite 300), JSVal.undef⟩)) ∧
    (handleGet mockEncoder ⟨some "https://example.com/a%20b/", none, some "300", none⟩).2.map
        (fun c => c.text) = ["https://example.com/a%20b/"] := by
  refine ⟨?_, ?_, ?_⟩
  · exact ((claim_target_preserved mockEncoder
      ⟨JSVal.strV "https://example.com/a%20b/", JSVal.undef, JSVal.numV (JSNum.finite 300),
        JSVal.undef⟩
      ⟨none, none, none, none⟩).1 "https://example.com/a%20b/" 300
      "data:image/png;base64,iVBORw0KGgoMOCK" rfl (by decide) rfl (by decide) (by decide)
      (by decide)).1
  · exact ((claim_target_preserved mockEncoder
      ⟨JSVal.strV "https://example.com/a%20b/", JSVal.undef, JSVal.numV (JSNum.finite 300),
        JSVal.undef⟩
      ⟨none, none, none, none⟩).1 "https://example.com/a%20b/" 300
      "data:image/png;base64,iVBORw0KGgoMOCK" rfl (by decide) rfl (by decide) (by decide)
      (by decide)).2 rfl
  · exact (claim_target_preserved mockEncoder
      ⟨JSVal.undef, JSVal.undef, JSVal.undef, JSVal.undef⟩
      ⟨some "https://example.com/a%20b/", none, some "300", none⟩).2
      "https://example.com/a%20b/" 300 rfl (by decide) (Or.inl (by decide)) (by decide)
      (by decide) (by decide)

/-- C6: every call the handlers make to the external renderer carries the
quiet-zone margin fixed at 2, the dark color fixed at opaque black, the
light color equal to fully transparent white exactly when the transparency
flag holds and fully opaque white otherwise, and the width equal to the
coerced size; on the POST path this is stated for the boolean-typed
transparency field of the declared request interface. -/
theorem claim_render_options (enc : Encoder) (b : PostBody) (q : QrQuery) :
    (∀ (tb : Bool) (c : RenderCall),
      ((b.transparentBackground = JSVal.undef ∧ tb = false) ∨
        b.transparentBackground = JSVal.boolV tb) →
      c ∈ (handlePost enc b).2 →
      c.options.margin = 2 ∧ c.options.color.dark = "#000000" ∧
      c.options.color.light = (if tb then "#FFFFFF00" else "#FFFFFF") ∧
      c.options.width = postSizeNum b) ∧
    (∀ c : RenderCall, c ∈ (handleGet enc q).2 →
      c.options.margin = 2 ∧ c.options.color.dark = "#000000" ∧
      c.options.color.light = (if getTransparent q then "#FFFFFF00" else "#FFFFFF") ∧
      c.options.width = getSizeNum q) := by
  constructor
  · intro tb c htb hc
    have hopt := (handlePost_mem_options enc b c hc).1
    have hpt : postTransparent b = JSVal.boolV tb := by
      rcases htb with ⟨h1, h2⟩ | h1
      · subst h2
        simp [postTransparent, h1, defaultTo]
      · simp [postTransparent, h1, defaultTo]
    rw [hopt]
    simp [postOptions, hpt, mkOptions, truthy]
  · intro c hc
    have hopt := (handleGet_mem_options enc q c hc).1
    rw [hopt]
    simp [getOptions, mkOptions]

/-- Witness for C6 at a concrete input: the one render call of a POST with
the boolean transparency flag set carries margin 2, black on transparent
white, and the validated width. -/
theorem claim_render_options_witness :
    ∃ c : RenderCall,
      c ∈ (handlePost mockEncoder
        ⟨JSVal.strV "https://example.com", JSVal.undef, JSVal.numV (JSNum.finite 300),
          JSVal.boolV true⟩).2 ∧
      c.options.margin = 2 ∧ c.options.color.dark = "#000000" ∧
      c.options.color.light = "#FFFFFF00" ∧ c.options.width = JSNum.finite 300 := by
  refine ⟨⟨RenderKind.dataURL, "https://example.com",
    mkOptions (JSNum.finite 300) true⟩, by decide, ?_⟩
  exact (claim_render_options mockEncoder
    ⟨JSVal.strV "https://example.com", JSVal.undef, JSVal.numV (JSNum.finite 300),
      JSVal.boolV true⟩
    ⟨none, none, none, none⟩).1 true
    ⟨RenderKind.dataURL, "https://example.com", mkOptions (JSNum.finite 300) true⟩
    (Or.inr rfl) (by decide)

/-- C7: a POST with only the url https://example.com answers 200 with a
JSON body carrying success true, the url echoed, format png, size 200 and
transparentBackground false, and a qrCode field equal to the data URI the
renderer produced; under the collaborator contract that data URI starts
with the raster prefix. -/
theorem claim_default_post_scenario (enc : Encoder) (d : String)
    (henc : enc.toDataURL "https://example.com" (mkOptions (JSNum.finite 200) false) =
      Except.ok d)
    (hpre : ("data:image/png;base64,".toList.isPrefixOf d.toList) = true) :
    handlePost enc ⟨JSVal.strV "https://example.com", JSVal.undef, JSVal.undef, JSVal.undef⟩ =
      (HttpResponse.json 200
        (postSuccessBody (JSVal.strV "https://example.com") d (JSVal.strV "png")
          (JSNum.finite 200) (JSVal.boolV false)),
       [⟨RenderKind.dataURL, "https://example.com", mkOptions (JSNum.finite 200) false⟩]) ∧
    ("data:image/png;base64,".toList.isPrefixOf d.toList) = true := by
  refine ⟨?_, hpre⟩
  rw [handlePost_png_run enc
    ⟨JSVal.strV "https://example.com", JSVal.undef, JSVal.undef, JSVal.undef⟩
    "https://example.com" rfl (by decide) rfl (by decide)]
  rw [show postOptions
      ⟨JSVal.strV "https://example.com", JSVal.undef, JSVal.undef, JSVal.undef⟩ =
    mkOptions (JSNum.finite 200) false from rfl]
  rw [henc]
  rfl

/-- Witness for C7: the concrete collaborator returns a data URI with the
raster prefix and the full concrete response is as claimed. -/
theorem claim_default_post_scenario_witness :
    handlePost mockEncoder
        ⟨JSVal.strV "https://example.com", JSVal.undef, JSVal.undef, JSVal.undef⟩ =
      (HttpResponse.json 200
        (postSuccessBody (JSVal.strV "https://example.com")
          "data:image/png;base64,iVBORw0KGgoMOCK" (JSVal.strV "png") (JSNum.finite 200)
          (JSVal.boolV false)),
       [⟨RenderKind.dataURL, "https://example.com", mkOptions (JSNum.finite 200) false⟩]) ∧
    ("data:image/png;base64,".toList.isPrefixOf
      "data:image/png;base64,iVBORw0KGgoMOCK".toList) = true := by
  exact (claim_default_post_scenario mockEncoder "data:image/png;base64,iVBORw0KGgoMOCK"
    rfl (by decide))

/-- C8: when the external renderer fails, on any branch of either endpoint,
the client receives exactly the fixed 500 body with error Internal server
error and message Failed to generate QR code; the response is a constant,
so the internal error value never reaches the client. -/
theorem claim_render_failure_masked (enc : Encoder) (b : PostBody) (q : QrQuery) :
    (∀ (u e : String), b.url = JSVal.strV u → isValidURL u = true →
      postFormat b = JSVal.strV "png" → sizeOutOfRange (postSizeNum b) = false →
      enc.toDataURL u (postOptions b) = Except.error e →
      handlePost enc b = (internalErrorResponse, [⟨RenderKind.dataURL, u, postOptions b⟩])) ∧
    (∀ (u e : String), b.url = JSVal.strV u → isValidURL u = true →
      postFormat b = JSVal.strV "svg" → sizeOutOfRange (postSizeNum b) = false →
      enc.toSVGString u (postOptions b) = Except.error e →
      handlePost enc b = (internalErrorResponse, [⟨RenderKind.svgString, u, postOptions b⟩])) ∧
    (∀ (u e : String), q.url = some u → isValidURL u = true →
      getFormat q = "png" → sizeOutOfRange (getSizeNum q) = false →
      enc.toBuffer u (getOptions q) = Except.error e →
      handleGet enc q = (internalErrorResponse, [⟨RenderKind.buffer, u, getOptions q⟩])) ∧
    (∀ (u e : String), q.url = some u → isValidURL u = true →
      getFormat q = "svg" → sizeOutOfRange (getSizeNum q) = false →
      enc.toSVGString u (getOptions q) = Except.error e →
      handleGet enc q = (internalErrorResponse, [⟨RenderKind.svgString, u, getOptions q⟩])) := by
  refine ⟨?_, ?_, ?_, ?_⟩
  · intro u e hu hv hf hsz henc
    rw [handlePost_png_run enc b u hu hv hf hsz, henc]
  · intro u e hu hv hf hsz henc
    rw [handlePost_svg_run enc b u hu hv hf hsz, henc]
  · intro u e hu hv hf hsz henc
    rw [handleGet_png_run enc q u hu hv hf hsz, henc]
  · intro u e hu hv hf hsz henc
    rw [handleGet_svg_run enc q u hu hv hf hsz, henc]

/-- Witness for C8 at concrete inputs: with a collaborator that fails, all
four render branches answer the fixed 500 body. -/
theorem claim_render_failure_masked_witness :
    handlePost failEncoder
        ⟨JSVal.strV "https://example.com", JSVal.undef, JSVal.undef, JSVal.undef⟩ =
      (internalErrorResponse,
        [⟨RenderKind.dataURL, "https://example.com",
          postOptions ⟨JSVal.strV "https://example.com", JSVal.undef, JSVal.undef,
            JSVal.undef⟩⟩]) ∧
    handlePost failEncoder
        ⟨JSVal.strV "https://example.com", JSVal.strV "svg", JSVal.undef, JSVal.undef⟩ =
      (internalErrorResponse,
        [⟨RenderKind.svgString, "https://example.com",
          postOptions ⟨JSVal.strV "https://example.com", JSVal.strV "svg", JSVal.undef,
            JSVal.undef⟩⟩]) ∧
    handleGet failEncoder ⟨some "https://example.com", none, none, none⟩ =
      (internalErrorResponse,
        [⟨RenderKind.buffer, "https://example.com",
          getOptions ⟨some "https://example.com", none, none, none⟩⟩]) ∧
    handleGet failEncoder ⟨some "https://example.com", some "svg", none, none⟩ =
      (internalErrorResponse,
        [⟨RenderKind.svgString, "https://example.com",
          getOptions ⟨some "https://example.com", some "svg", none, none⟩⟩]) := by
  refine ⟨?_, ?_, ?_, ?_⟩
  · exact (claim_render_failure_masked failEncoder
      ⟨JSVal.strV "https://example.com", JSVal.undef, JSVal.undef, JSVal.undef⟩
      ⟨none, none, none, none⟩).1 "https://example.com" "boom-dataurl" rfl (by decide) rfl
      (by decide) rfl
  · exact (claim_render_failure_masked failEncoder
      ⟨JSVal.strV "https://example.com", JSVal.strV "svg", JSVal.undef, JSVal.undef⟩
      ⟨none, none, none, none⟩).2.1 "https://example.com" "boom-svg" rfl (by decide) rfl
      (by decide) rfl
  · exact (claim_render_failure_masked failEncoder
      ⟨JSVal.undef, JSVal.undef, JSVal.undef, JSVal.undef⟩
      ⟨some "https://example.com", none, none, none⟩).2.2.1 "https://example.com"
      "boom-buffer" rfl (by decide) rfl (by decide) rfl
  · exact (claim_render_failure_masked failEncoder
      ⟨JSVal.undef, JSVal.undef, JSVal.undef, JSVal.undef⟩
      ⟨some "https://example.com", some "svg", none, none⟩).2.2.2 "https://example.com"
      "boom-svg" rfl (by decide) rfl (by decide) rfl

/-- C9: each handler invokes the external renderer at most once per
request, so no retry is ever attempted on failure, and the handlers are
deterministic functions of the collaborator and the request, so two
invocations on the same request value produce identical output. -/
theorem claim_render_single_shot (enc : Encoder) (b : PostBody) (q : QrQuery) :
    (handlePost enc b).2.length ≤ 1 ∧ (handleGet enc q).2.length ≤ 1 ∧
    (∀ r₁ r₂ : HttpResponse × List RenderCall,
      handlePost enc b = r₁ → handlePost enc b = r₂ → r₁ = r₂) ∧
    (∀ r₁ r₂ : HttpResponse × List RenderCall,
      handleGet enc q = r₁ → handleGet enc q = r₂ → r₁ = r₂) := by
  refine ⟨handlePost_at_most_one_call enc b, handleGet_at_most_one_call enc q, ?_, ?_⟩
  · intro r₁ r₂ h1 h2
    rw [← h1, ← h2]
  · intro r₁ r₂ h1 h2
    rw [← h1, ← h2]

/-- Witness for C9 at concrete inputs: both handlers make exactly at most
one render call on a fully valid request, and rerunning them yields the
same value. -/
theorem claim_render_single_shot_witness :
    (handlePost mockEncoder
      ⟨JSVal.strV "https://example.com", JSVal.undef, JSVal.undef, JSVal.undef⟩).2.length ≤ 1 ∧
    (handleGet mockEncoder ⟨some "https://example.com", none, none, none⟩).2.length ≤ 1 ∧
    handlePost mockEncoder
        ⟨JSVal.strV "https://example.com", JSVal.undef, JSVal.undef, JSVal.undef⟩ =
      handlePost mockEncoder
        ⟨JSVal.strV "https://example.com", JSVal.undef, JSVal.undef, JSVal.undef⟩ := by
  refine ⟨(claim_render_single_shot mockEncoder
      ⟨JSVal.strV "https://example.com", JSVal.undef, JSVal.undef, JSVal.undef⟩
      ⟨some "https://example.com", none, none, none⟩).1,
    (claim_render_single_shot mockEncoder
      ⟨JSVal.strV "https://example.com", JSVal.undef, JSVal.undef, JSVal.undef⟩
      ⟨some "https://example.com", none, none, none⟩).2.1,
    (claim_render_single_shot mockEncoder
      ⟨JSVal.strV "https://example.com", JSVal.undef, JSVal.undef, JSVal.undef⟩
      ⟨some "https://example.com", none, none, none⟩).2.2.1 _ _ rfl rfl⟩

/-- C10: the POST path accepts non-integer sizes: any raw size whose
Number coercion is a finite value in the inclusive range 100 to 1000, with
no integrality requirement, passes validation, the fractional value itself
is the render width, and the JSON response echoes the coerced number in
its size field. -/
theorem claim_fractional_size (enc : Encoder) (b : PostBody) :
    ∀ (u : String) (s : ℚ) (d : String), b.url = JSVal.strV u → isValidURL u = true →
      postFormat b = JSVal.strV "png" →
      postSizeNum b = JSNum.finite s → 100 ≤ s → s ≤ 1000 →
      enc.toDataURL u (postOptions b) = Except.ok d →
      handlePost enc b =
        (HttpResponse.json 200
          (postSuccessBody (JSVal.strV u) d (JSVal.strV "png") (JSNum.finite s)
            (postTransparent b)),
         [⟨RenderKind.dataURL, u,
            mkOptions (JSNum.finite s) (truthy (postTransparent b))⟩]) := by
  intro u s d hu hv hf hs h1 h2 henc
  have hsz : sizeOutOfRange (postSizeNum b) = false := by
    rw [hs]; exact sizeOutOfRange_false_of_bounds h1 h2
  rw [handlePost_png_run enc b u hu hv hf hsz, henc, hu, hf, hs]
  rw [show postOptions b = mkOptions (postSizeNum b) (truthy (postTransparent b)) from rfl, hs]

/-- Witness for C10 at the concrete input 150.5, a size whose coerced
value lies strictly between the consecutive integers 150 and 151 and so is
not an integer: validation succeeds, the render width is 150.5 and the
JSON size field echoes 150.5. -/
theorem claim_fractional_size_witness :
    postSizeNum ⟨JSVal.strV "https://example.com", JSVal.undef, JSVal.strV "150.5",
        JSVal.undef⟩ = JSNum.finite (301 / 2) ∧
    ((150 : ℚ) < 301 / 2 ∧ (301 / 2 : ℚ) < 151) ∧
    handlePost mockEncoder
        ⟨JSVal.strV "https://example.com", JSVal.undef, JSVal.strV "150.5", JSVal.undef⟩ =
      (HttpResponse.json 200
        (postSuccessBody (JSVal.strV "https://example.com")
          "data:image/png;base64,iVBORw0KGgoMOCK" (JSVal.strV "png") (JSNum.finite (301 / 2))
          (postTransparent ⟨JSVal.strV "https://example.com", JSVal.undef, JSVal.strV "150.5",
            JSVal.undef⟩)),
       [⟨RenderKind.dataURL, "https://example.com",
          mkOptions (JSNum.finite (301 / 2))
            (truthy (postTransparent ⟨JSVal.strV "https://example.com", JSVal.undef,
              JSVal.strV "150.5", JSVal.undef⟩))⟩]) := by
  have hd1 : digitsToNat ['1', '5', '0'] = 150 := by decide
  have hd2 : digitsToNat ['5'] = 5 := by decide
  have hsn : strToNumber "150.5" =
      JSNum.finite (((1 : ℤ) : ℚ) * decValue ['1', '5', '0'] ['5'] 0) := rfl
  have hval : ((1 : ℤ) : ℚ) * decValue ['1', '5', '0'] ['5'] 0 = 301 / 2 := by
    simp only [decValue, hd1, hd2, List.length_singleton]
    norm_num
  have hsize : postSizeNum ⟨JSVal.strV "https://example.com", JSVal.undef,
      JSVal.strV "150.5", JSVal.undef⟩ = JSNum.finite (301 / 2) := by
    rw [show postSizeNum ⟨JSVal.strV "https://example.com", JSVal.undef,
      JSVal.strV "150.5", JSVal.undef⟩ = strToNumber "150.5" from rfl, hsn]
    exact congrArg JSNum.finite hval
  refine ⟨hsize, by norm_num, ?_⟩
  exact claim_fractional_size mockEncoder
    ⟨JSVal.strV "https://example.com", JSVal.undef, JSVal.strV "150.5", JSVal.undef⟩
    "https://example.com" (301 / 2) "data:image/png;base64,iVBORw0KGgoMOCK" rfl (by decide)
    rfl hsize (by norm_num) (by norm_num) rfl
